import Mathlib

/-!
Shallow embedding of the procurement-integrity core of the ai-cdf-tracker
repository (FastAPI/SQLModel backend plus a CSV import pipeline), together
with theorems settling the frozen claims about it.

Conventions of the embedding:
* machine strings are `String`, nullable columns are `Option _`;
* surrogate integer keys are `Nat`; timestamps (`datetime.utcnow()` values)
  are abstracted to `Nat` ticks supplied by the caller (`now`);
* `float` column values are carried, never computed with, so they are
  modelled as parsed decimal literals (`DecimalVal`) with structural
  equality — distinct spellings of one number ("1.5" vs "1.50") are not
  identified, which no verified claim depends on;
* `date` values are triples of numerals as accepted by
  `datetime.strptime(value, "%Y-%m-%d")`;
* a relational table is a `List` of rows in insertion order; `.first()` on
  an unordered SQL result is modelled as the first row in list order;
* a FastAPI handler is a function from the database value (and request
  data) to a `RouterResult` response paired with the resulting database;
  an `HTTPException` raised by the handler is `RouterResult.httpError`,
  while an exception escaping the handler (for instance an uncaught
  IntegrityError from `session.commit()`) is `RouterResult.serverError`.
-/

/-! ### Python-style string helpers -/

/-- Python `value.strip()`, implemented structurally on the character list
so that concrete evaluations reduce in the kernel. -/
def pyStrip (s : String) : String :=
  ⟨((s.data.dropWhile Char.isWhitespace).reverse.dropWhile Char.isWhitespace).reverse⟩

/-- Python `value.lower()`, implemented structurally. -/
def pyLower (s : String) : String :=
  ⟨s.data.map Char.toLower⟩

/-- Python truthiness of `Optional[str]`: `None` and `""` are falsy. -/
def optStrTruthy : Option String → Bool
  | none => false
  | some s => !(s == "")

/-- Python `(s or default)` for strings: empty string selects the default. -/
def pyOrDefault (s default : String) : String :=
  if s = "" then default else s

/-- Python `value.strip() or None`. -/
def strippedOrNone (s : String) : Option String :=
  let t := pyStrip s
  if t = "" then none else some t

/-! ### Lexicographic string comparison

SQL string ordering is modelled as lexicographic order on the code-point
sequence, implemented structurally so that concrete comparisons reduce in
the kernel. -/

/-- Lexicographic "less or equal" on code-point lists. -/
def charListLe : List Char → List Char → Bool
  | [], _ => true
  | _ :: _, [] => false
  | a :: as, b :: bs =>
    if a.toNat = b.toNat then charListLe as bs else decide (a.toNat < b.toNat)

/-- Lexicographic "less or equal" on strings (code-point order). -/
def strLe (s t : String) : Bool :=
  charListLe s.data t.data

/-! ### Numeric and date parsing (data_pipeline/import_projects.py helpers) -/

/-- Are all characters decimal digits (and at least one present)? -/
def allDigits (cs : List Char) : Bool :=
  match cs with
  | [] => false
  | _ => cs.all (fun c => '0' ≤ c ∧ c ≤ '9')

/-- Numeric value of a digit list (most significant first). -/
def digitsVal : List Char → Nat
  | [] => 0
  | c :: cs => (c.toNat - '0'.toNat) * 10 ^ cs.length + digitsVal cs

/-- A decimal literal as accepted by Python `float()` on plain decimal
input: sign, integer digits, optional fractional digits. `mantissa` is the
digit string read as an integer and `scale` the number of fractional
digits. Exotic `float()` inputs (exponents, `inf`, `nan`) are outside the
model; no verified claim exercises them. -/
structure DecimalVal where
  negative : Bool
  mantissa : Nat
  scale : Nat
deriving DecidableEq, Repr

/-- Zero, the value of Python `float(0)`. -/
def DecimalVal.zero : DecimalVal := ⟨false, 0, 0⟩

/-- Parse the unsigned part of a decimal literal: digits with at most one
point and at least one digit on each present side. -/
def parseUnsignedDecimal? (cs : List Char) : Option (Nat × Nat) :=
  match cs.splitOn '.' with
  | [intPart] => if allDigits intPart then some (digitsVal intPart, 0) else none
  | [intPart, fracPart] =>
    if allDigits intPart && allDigits fracPart then
      some (digitsVal intPart * 10 ^ fracPart.length + digitsVal fracPart, fracPart.length)
    else none
  | _ => none

/-- Python `float(s)` on plain decimal literals: strips whitespace, then
optional sign and digits. Returns `none` where `float()` raises. -/
def parseFloat? (s : String) : Option DecimalVal :=
  match (pyStrip s).data with
  | [] => none
  | '-' :: rest => (parseUnsignedDecimal? rest).map (fun p => ⟨true, p.1, p.2⟩)
  | '+' :: rest => (parseUnsignedDecimal? rest).map (fun p => ⟨false, p.1, p.2⟩)
  | cs => (parseUnsignedDecimal? cs).map (fun p => ⟨false, p.1, p.2⟩)

/-- A calendar date as parsed by `datetime.strptime(value, "%Y-%m-%d")`. -/
structure Date where
  year : Nat
  month : Nat
  day : Nat
deriving DecidableEq, Repr

/-- `datetime.strptime(value, "%Y-%m-%d")`: three dash-separated digit
groups with a month in 1..12 and a day in 1..31 (per-month day counts are
abstracted; no verified claim depends on them). Returns `none` where
`strptime` raises. -/
def parseYmd? (s : String) : Option Date :=
  match s.data.splitOn '-' with
  | [y, m, d] =>
    if allDigits y && allDigits m && allDigits d then
      let mv := digitsVal m
      let dv := digitsVal d
      if 1 ≤ mv && mv ≤ 12 && 1 ≤ dv && dv ≤ 31 then
        some ⟨digitsVal y, mv, dv⟩
      else none
    else none
  | _ => none

/-- `parse_date` (import_projects.py lines 20-24): strip; empty means no
date; otherwise `strptime("%Y-%m-%d")`, raising (`none`) when unparseable. -/
def parse_date (value : String) : Option (Option Date) :=
  let v := pyStrip value
  if v = "" then some none
  else (parseYmd? v).map some

/-- `as_float` (import_projects.py lines 37-41): strip; empty means null;
otherwise `float(value)`, raising (`none`) when non-numeric. -/
def as_float (value : String) : Option (Option DecimalVal) :=
  let v := pyStrip value
  if v = "" then some none
  else (parseFloat? v).map some

/-- `as_bool` (import_projects.py lines 44-46). -/
def as_bool (value : String) : Bool :=
  let v := pyLower (pyStrip value)
  v == "1" || v == "true" || v == "yes" || v == "y"

/-! ### Entity rows (backend/models/*.py) -/

/-- `ProjectCategory` enum (backend/models/project.py). -/
inductive ProjectCategory
  | Education | Health | Water | Infrastructure | Security | Environment | Other
deriving DecidableEq, Repr

/-- `ProjectCategory(value)`: the str-enum constructor, `none` where Python
raises `ValueError`. -/
def ProjectCategory.ofString? : String → Option ProjectCategory
  | "Education" => some .Education
  | "Health" => some .Health
  | "Water" => some .Water
  | "Infrastructure" => some .Infrastructure
  | "Security" => some .Security
  | "Environment" => some .Environment
  | "Other" => some .Other
  | _ => none

/-- `ProjectStatus` enum (backend/models/project.py). -/
inductive ProjectStatus
  | Planned | Ongoing | Completed | Flagged
deriving DecidableEq, Repr

/-- `ProjectStatus(value)`: the str-enum constructor, `none` where Python
raises `ValueError`. -/
def ProjectStatus.ofString? : String → Option ProjectStatus
  | "Planned" => some .Planned
  | "Ongoing" => some .Ongoing
  | "Completed" => some .Completed
  | "Flagged" => some .Flagged
  | _ => none

/-- `Constituency` row (backend/models/constituency.py); `code` is the
primary key. -/
structure Constituency where
  code : String
  name : String
  county : String
  mp_name : String
  population : Option Nat := none
  pas_score : Option DecimalVal := none
deriving DecidableEq, Repr

/-- `Project` row (backend/models/project.py); `id` is the surrogate
primary key (carried assigned, as in a committed row). -/
structure Project where
  id : Nat
  title : String
  description : Option String := none
  category : ProjectCategory
  status : ProjectStatus := .Planned
  budget : DecimalVal
  spent : Option DecimalVal := none
  progress : Option DecimalVal := none
  constituency_code : String
  start_date : Option Date := none
  completion_date : Option Date := none
  is_mock : Bool := true
  source_name : Option String := none
  source_url : Option String := none
  source_doc_ref : Option String := none
  last_updated : Nat
deriving DecidableEq, Repr

/-- `Contractor` row (backend/models/contractor.py). -/
structure Contractor where
  id : Nat
  name : String
  phone : Option String := none
  email : Option String := none
  registration_no : Option String := none
  address : Option String := none
  created_at : Nat := 0
deriving DecidableEq, Repr

/-- `ProcurementAward` row (backend/models/procurement_award.py). -/
structure ProcurementAward where
  id : Nat
  project_id : Nat
  contractor_id : Nat
  tender_id : Option String := none
  procurement_method : Option String := none
  contract_value : Option DecimalVal := none
  award_date : Option Date := none
  contractor_share_hint : Option DecimalVal := none
  performance_flag : Option Bool := some false
  performance_flag_reason : Option String := none
  created_at : Nat := 0
deriving DecidableEq, Repr

/-- `UserRole` enum (backend/models/user.py). -/
inductive UserRole
  | admin | moderator | viewer
deriving DecidableEq, Repr

/-- `UserStatus` enum (backend/models/user.py). -/
inductive UserStatus
  | active | disabled
deriving DecidableEq, Repr

/-- `User` row (backend/models/user.py). -/
structure User where
  id : Nat
  username : String
  password_hash : String
  full_name : Option String := none
  email : Option String := none
  role : UserRole := .moderator
  status : UserStatus := .active
  created_at : Nat := 0
  last_login : Option Nat := none
deriving DecidableEq, Repr

/-- The relational store: one list of rows per table, insertion order. -/
structure AppDB where
  constituencies : List Constituency := []
  projects : List Project := []
  contractors : List Contractor := []
  awards : List ProcurementAward := []
deriving DecidableEq, Repr

/-! ### HTTP-level outcomes -/

/-- `HTTPException`s raised by the handlers under verification. -/
inductive ApiError
  | badRequest (detail : String)
  | notFound (detail : String)
  | unauthorized (detail : String)
  | forbidden (detail : String)
deriving DecidableEq, Repr

/-- Outcome of one handler invocation. `serverError` is an exception that
escapes the handler uncaught (HTTP 500), as opposed to a raised
`HTTPException`. -/
inductive RouterResult (α : Type) where
  | ok (value : α)
  | httpError (e : ApiError)
  | serverError
deriving DecidableEq, Repr

/-! ### Award Binder (backend/api/procurement_award_router.py) -/

/-- `ProcurementAwardCreate` request body (router lines 17-26). -/
structure ProcurementAwardCreate where
  project_id : Nat
  contractor_id : Nat
  tender_id : Option String := none
  procurement_method : Option String := none
  contract_value : Option DecimalVal := none
  award_date : Option Date := none
  contractor_share_hint : Option DecimalVal := none
  performance_flag : Bool := false
  performance_flag_reason : Option String := none
deriving DecidableEq, Repr

/-- `ProcurementAwardUpdate` request body (router lines 28-36). The outer
`Option` is request-level presence (pydantic `exclude_unset=True`); the
inner type is the value carried when present. An explicitly-null
`contractor_id` (rejected by the non-nullable column at commit) is outside
the model; no verified claim exercises it. -/
structure ProcurementAwardUpdate where
  contractor_id : Option Nat := none
  tender_id : Option (Option String) := none
  procurement_method : Option (Option String) := none
  contract_value : Option (Option DecimalVal) := none
  award_date : Option (Option Date) := none
  contractor_share_hint : Option (Option DecimalVal) := none
  performance_flag : Option (Option Bool) := none
  performance_flag_reason : Option (Option String) := none
deriving DecidableEq, Repr

/-- Declared storage flags of one column. -/
structure ColumnFlags where
  foreignKey : Bool
  indexed : Bool
  unique : Bool
deriving DecidableEq, Repr

/-- Declared flags of `ProcurementAward.project_id`, transcribed from
`project_id: int = Field(foreign_key="project.id", index=True)`
(backend/models/procurement_award.py line 16): a foreign key with an index
and NO `unique=True` (contrast `User.username`, declared
`Field(index=True, unique=True)` in backend/models/user.py line 30). -/
def projectIdFlags : ColumnFlags :=
  { foreignKey := true, indexed := true, unique := false }

/-- Storage-level failure of a commit. -/
inductive StorageError
  | integrityError
deriving DecidableEq, Repr

/-- Next autoincrement id for a list of award rows. -/
def nextAwardId (awards : List ProcurementAward) : Nat :=
  (awards.foldr (fun a m => max a.id m) 0) + 1

/-- Row built by `ProcurementAward(**payload.model_dump())` once the
autoincrement id and server-side `created_at` are assigned at commit. -/
def payloadToAward (id now : Nat) (p : ProcurementAwardCreate) : ProcurementAward :=
  { id := id
    project_id := p.project_id
    contractor_id := p.contractor_id
    tender_id := p.tender_id
    procurement_method := p.procurement_method
    contract_value := p.contract_value
    award_date := p.award_date
    contractor_share_hint := p.contractor_share_hint
    performance_flag := some p.performance_flag
    performance_flag_reason := p.performance_flag_reason
    created_at := now }

/-- The application-level pre-check of `create_award` (router lines 57-59):
the `select ... where project_id == payload.project_id` read finds no
existing award. -/
def awardPreCheckPasses (awards : List ProcurementAward) (pid : Nat) : Bool :=
  (awards.find? (fun a => a.project_id == pid)).isNone

/-- Storage-level commit of an award INSERT: enforces exactly the
constraints the model declares on the award table that are internal to it —
primary-key uniqueness of `id`, and uniqueness of `project_id` only if the
column declared `unique=True` (it does not: `projectIdFlags.unique = false`). -/
def awardInsertCommit (awards : List ProcurementAward) (a : ProcurementAward) :
    Except StorageError (List ProcurementAward) :=
  if awards.any (fun b => b.id == a.id) then .error .integrityError
  else if projectIdFlags.unique && awards.any (fun b => b.project_id == a.project_id) then
    .error .integrityError
  else .ok (awards ++ [a])

/-- `create_award` (router lines 54-67): duplicate pre-check, then
`session.add`/`session.commit` with no surrounding try/except — a commit
failure escapes the handler uncaught (`serverError`), it is never mapped to
an `HTTPException`. No existence check on `project_id` or `contractor_id`
is performed. -/
def create_award (db : AppDB) (now : Nat) (payload : ProcurementAwardCreate) :
    RouterResult ProcurementAward × AppDB :=
  if !(awardPreCheckPasses db.awards payload.project_id) then
    (.httpError (.badRequest "This project already has an award"), db)
  else
    let a := payloadToAward (nextAwardId db.awards) now payload
    match awardInsertCommit db.awards a with
    | .ok awards' => (.ok a, { db with awards := awards' })
    | .error _ => (.serverError, db)

/-- `setattr(award, k, v)` for each field present in
`payload.model_dump(exclude_unset=True)` (router lines 76-78). -/
def applyAwardUpdate (a : ProcurementAward) (u : ProcurementAwardUpdate) :
    ProcurementAward :=
  { a with
    contractor_id := u.contractor_id.getD a.contractor_id
    tender_id := u.tender_id.getD a.tender_id
    procurement_method := u.procurement_method.getD a.procurement_method
    contract_value := u.contract_value.getD a.contract_value
    award_date := u.award_date.getD a.award_date
    contractor_share_hint := u.contractor_share_hint.getD a.contractor_share_hint
    performance_flag := u.performance_flag.getD a.performance_flag
    performance_flag_reason := u.performance_flag_reason.getD a.performance_flag_reason }

/-- Replace the first award row bearing primary key `aid` (the object
returned by `session.get(ProcurementAward, award_id)`) with `a'`. -/
def replaceFirstAward (awards : List ProcurementAward) (aid : Nat)
    (a' : ProcurementAward) : List ProcurementAward :=
  match awards with
  | [] => []
  | b :: bs => if b.id == aid then a' :: bs else b :: replaceFirstAward bs aid a'

/-- `update_award` (router lines 70-83): `session.get` by primary key, 404
when absent, otherwise apply exactly the request-present fields and commit. -/
def update_award (db : AppDB) (aid : Nat) (payload : ProcurementAwardUpdate) :
    RouterResult ProcurementAward × AppDB :=
  match db.awards.find? (fun a => a.id == aid) with
  | none => (.httpError (.notFound "Award not found"), db)
  | some a =>
    let a' := applyAwardUpdate a payload
    (.ok a', { db with awards := replaceFirstAward db.awards aid a' })

/-! ### Project View Assembler (backend/api/project_router.py) -/

/-- `ProjectReadWithConstituency` (backend/schemas/project.py), the
flattened read model. -/
structure ProjectView where
  id : Nat
  title : String
  description : Option String
  category : ProjectCategory
  status : ProjectStatus
  budget : DecimalVal
  spent : Option DecimalVal
  progress : Option DecimalVal
  constituency_code : String
  constituency_name : String
  mp_name : String
  county : String
  contractor_name : Option String
  tender_id : Option String
  procurement_method : Option String
  contract_value : Option DecimalVal
  award_date : Option Date
  start_date : Option Date
  completion_date : Option Date
  last_updated : Nat
  is_mock : Bool
  source_name : Option String
  source_url : Option String
  source_doc_ref : Option String
deriving DecidableEq, Repr

/-- One result row of the select
`Project ⋈ Constituency ⟕ ProcurementAward ⟕ Contractor`. -/
structure JoinRow where
  project : Project
  constituency : Constituency
  award : Option ProcurementAward
  contractor : Option Contractor
deriving DecidableEq, Repr

/-- Award/contractor expansion of one (project, constituency) pair under
the two left-outer joins: no matching award yields one row with null award
and (hence) null contractor; each matching award yields one row per
matching contractor, or one row with null contractor when its
`contractor_id` resolves to no contractor row. -/
def awardRows (db : AppDB) (p : Project) (c : Constituency) : List JoinRow :=
  match db.awards.filter (fun a => a.project_id == p.id) with
  | [] => [⟨p, c, none, none⟩]
  | as =>
    as.flatMap (fun a =>
      match db.contractors.filter (fun k => k.id == a.contractor_id) with
      | [] => [⟨p, c, some a, none⟩]
      | ks => ks.map (fun k => ⟨p, c, some a, some k⟩))

/-- Join rows contributed by a single project: the inner join to
`Constituency` on `Project.constituency_code == Constituency.code`
(dropping the project when no constituency matches), then the outer joins. -/
def projRows (db : AppDB) (p : Project) : List JoinRow :=
  (db.constituencies.filter (fun c => c.code == p.constituency_code)).flatMap
    (fun c => awardRows db p c)

/-- The full join of project_router.py lines 44-49 (and 102-106). -/
def joinRows (db : AppDB) : List JoinRow :=
  db.projects.flatMap (fun p => projRows db p)

/-- The response-dict construction of project_router.py lines 84-95 /
115-124: project fields, constituency fields, and the independently
nullable award/contractor fields. -/
def mkView (r : JoinRow) : ProjectView :=
  { id := r.project.id
    title := r.project.title
    description := r.project.description
    category := r.project.category
    status := r.project.status
    budget := r.project.budget
    spent := r.project.spent
    progress := r.project.progress
    constituency_code := r.project.constituency_code
    constituency_name := r.constituency.name
    mp_name := r.constituency.mp_name
    county := r.constituency.county
    contractor_name := r.contractor.map (fun k => k.name)
    tender_id := r.award.bind (fun a => a.tender_id)
    procurement_method := r.award.bind (fun a => a.procurement_method)
    contract_value := r.award.bind (fun a => a.contract_value)
    award_date := r.award.bind (fun a => a.award_date)
    start_date := r.project.start_date
    completion_date := r.project.completion_date
    last_updated := r.project.last_updated
    is_mock := r.project.is_mock
    source_name := r.project.source_name
    source_url := r.project.source_url
    source_doc_ref := r.project.source_doc_ref }

/-- `read_project` (project_router.py lines 100-126): the join restricted
to `Project.id == project_id`, `.first()`, 404 when empty. -/
def read_project (db : AppDB) (pid : Nat) : RouterResult ProjectView :=
  match (joinRows db).filter (fun r => r.project.id == pid) with
  | [] => .httpError (.notFound "Project not found")
  | r :: _ => .ok (mkView r)

/-- The sort column selected by `read_projects`. -/
inductive SortField
  | byId | byTitle | byLastUpdated
deriving DecidableEq, Repr

/-- The sort direction selected by `read_projects`. -/
inductive SortDir
  | ascending | descending
deriving DecidableEq, Repr

/-- The if/elif chain of project_router.py lines 58-75: five explicit
matches; everything else — including the documented default
`"last_updated_desc"` — keeps the initial `(last_updated, desc)`. -/
def sortSpec (sort : String) : SortField × SortDir :=
  if sort = "id_asc" then (.byId, .ascending)
  else if sort = "id_desc" then (.byId, .descending)
  else if sort = "title_asc" then (.byTitle, .ascending)
  else if sort = "title_desc" then (.byTitle, .descending)
  else if sort = "last_updated_asc" then (.byLastUpdated, .ascending)
  else (.byLastUpdated, .descending)

/-- Row comparison implementing `order_by(direction(field))`. -/
def rowLe (spec : SortField × SortDir) (r₁ r₂ : JoinRow) : Bool :=
  match spec with
  | (.byId, .ascending) => decide (r₁.project.id ≤ r₂.project.id)
  | (.byId, .descending) => decide (r₂.project.id ≤ r₁.project.id)
  | (.byTitle, .ascending) => strLe r₁.project.title r₂.project.title
  | (.byTitle, .descending) => strLe r₂.project.title r₁.project.title
  | (.byLastUpdated, .ascending) => decide (r₁.project.last_updated ≤ r₂.project.last_updated)
  | (.byLastUpdated, .descending) => decide (r₂.project.last_updated ≤ r₁.project.last_updated)

/-- Insert into a list sorted by `le`. -/
def insertBy {α : Type} (le : α → α → Bool) (x : α) : List α → List α
  | [] => [x]
  | y :: ys => if le x y then x :: y :: ys else y :: insertBy le x ys

/-- Insertion sort by `le`; a deterministic refinement of the unspecified
tie order of SQL `ORDER BY`. -/
def sortBy {α : Type} (le : α → α → Bool) : List α → List α
  | [] => []
  | x :: xs => insertBy le x (sortBy le xs)

/-- The conjunctive optional filters of project_router.py lines 51-56.
`constituency_code` is tested for Python string truthiness; the enum
filters for presence. -/
def applyFilters (cc : Option String) (cat : Option ProjectCategory)
    (st : Option ProjectStatus) (rows : List JoinRow) : List JoinRow :=
  let rows := if optStrTruthy cc then
      rows.filter (fun r => some r.project.constituency_code == cc)
    else rows
  let rows := match cat with
    | some v => rows.filter (fun r => r.project.category == v)
    | none => rows
  match st with
  | some v => rows.filter (fun r => r.project.status == v)
  | none => rows

/-- `read_projects` (project_router.py lines 31-97): join, filters, sort
key selection, offset/limit pagination, view construction. -/
def read_projects (db : AppDB) (cc : Option String) (cat : Option ProjectCategory)
    (st : Option ProjectStatus) (sort : String) (off lim : Nat) : List ProjectView :=
  let rows := applyFilters cc cat st (joinRows db)
  let rows := sortBy (rowLe (sortSpec sort)) rows
  ((rows.drop off).take lim).map mkView

/-! ### Access Guard (backend/core/auth.py, backend/api/auth_router.py) -/

/-- Result of the external JWT collaborator's decode/verify step
(`jwt.decode` in `get_current_user`): failure (bad signature or expiry) or
the decoded claims' `sub` entry (absent when the payload carries none). -/
inductive TokenDecode
  | failed
  | payload (sub : Option String)
deriving DecidableEq, Repr

/-- `get_current_user` (backend/core/auth.py lines 40-69): 401 on decode
failure or falsy subject or unknown username, 403 for a disabled account,
otherwise the principal. -/
def get_current_user (users : List User) (t : TokenDecode) : RouterResult User :=
  match t with
  | .failed => .httpError (.unauthorized "Could not validate credentials")
  | .payload sub =>
    let username := sub.getD ""
    if username = "" then .httpError (.unauthorized "Could not validate credentials")
    else
      match users.find? (fun u => u.username == username) with
      | none => .httpError (.unauthorized "Could not validate credentials")
      | some u =>
        if u.status = .disabled then .httpError (.forbidden "Account disabled")
        else .ok u

/-- `GET /auth/me` (backend/api/auth_router.py lines 37-51): the guard
dependency followed by field serialization, modelled as returning the
authenticated principal. -/
def auth_me (users : List User) (t : TokenDecode) : RouterResult User :=
  get_current_user users t

/-- Replace the first user row whose username matches (the object mutated
by the login handler) with `u'`. -/
def updateFirstUser (users : List User) (uname : String) (u' : User) : List User :=
  match users with
  | [] => []
  | v :: vs => if v.username == uname then u' :: vs else v :: updateFirstUser vs uname u'

/-- `login` (backend/api/auth_router.py lines 15-34): look up by username,
verify the password through the external hash collaborator `verify`, 401
on failure; on success set `last_login` and issue a token whose subject is
the username (token signing is the external collaborator, so the token is
modelled by its subject claim). No account-status check is made here. -/
def login (users : List User) (verify : String → String → Bool)
    (uname pw : String) (now : Nat) : RouterResult String × List User :=
  match users.find? (fun u => u.username == uname) with
  | none => (.httpError (.unauthorized "Incorrect username or password"), users)
  | some u =>
    if verify u.password_hash pw then
      let u' := { u with last_login := some now }
      (.ok uname, updateFirstUser users uname u')
    else
      (.httpError (.unauthorized "Incorrect username or password"), users)

/-! ### Natural-Key Upsert / bulk import (data_pipeline/import_projects.py) -/

/-- One CSV row as seen through `row.get(key) or ""`: a missing column and
an empty cell are both the empty string. -/
structure RawRow where
  title : String := ""
  description : String := ""
  category : String := ""
  status : String := ""
  budget : String := ""
  spent : String := ""
  progress : String := ""
  constituency_code : String := ""
  start_date : String := ""
  completion_date : String := ""
  is_mock : String := ""
  source_name : String := ""
  source_url : String := ""
  source_doc_ref : String := ""
deriving DecidableEq, Repr

/-- `normalize_category` (import_projects.py lines 27-29): strip then the
raising enum constructor. -/
def normalize_category (value : String) : Option ProjectCategory :=
  ProjectCategory.ofString? (pyStrip value)

/-- `normalize_status` (import_projects.py lines 32-34). -/
def normalize_status (value : String) : Option ProjectStatus :=
  ProjectStatus.ofString? (pyStrip value)

/-- `float(row.get("budget") or 0)`: missing/empty budget is float 0,
anything else must parse. -/
def parseBudget (value : String) : Option DecimalVal :=
  if value = "" then some DecimalVal.zero else parseFloat? value

/-- The `payload = dict(...)` of import_projects.py lines 84-100. -/
structure ImportPayload where
  title : String
  description : Option String
  category : ProjectCategory
  status : ProjectStatus
  budget : DecimalVal
  spent : Option DecimalVal
  progress : Option DecimalVal
  constituency_code : String
  start_date : Option Date
  completion_date : Option Date
  is_mock : Bool
  source_name : Option String
  source_url : Option String
  source_doc_ref : Option String
deriving DecidableEq, Repr

/-- Build the payload of one row; `none` exactly when one of the raising
helpers (`normalize_category`, `normalize_status`, `float`, `parse_date`)
raises, which aborts the whole import (there is no per-row try/except). -/
def buildPayload (row : RawRow) : Option ImportPayload := do
  let category ← normalize_category (pyOrDefault row.category "Other")
  let status ← normalize_status (pyOrDefault row.status "Planned")
  let budget ← parseBudget row.budget
  let spent ← as_float row.spent
  let progress ← as_float row.progress
  let start_date ← parse_date row.start_date
  let completion_date ← parse_date row.completion_date
  some
    { title := pyStrip row.title
      description := strippedOrNone row.description
      category := category
      status := status
      budget := budget
      spent := spent
      progress := progress
      constituency_code := pyStrip row.constituency_code
      start_date := start_date
      completion_date := completion_date
      is_mock := as_bool (pyOrDefault row.is_mock "false")
      source_name := strippedOrNone row.source_name
      source_url := strippedOrNone row.source_url
      source_doc_ref := strippedOrNone row.source_doc_ref }

/-- `find_existing` (import_projects.py lines 49-62): select by title and
constituency_code, then — via Python truthiness of `source_doc_ref` —
either equality with the given ref or `IS NULL`; `.first()`. -/
def find_existing (projects : List Project) (title constituency_code : String)
    (source_doc_ref : Option String) : Option Project :=
  projects.find? (fun p =>
    p.title == title && p.constituency_code == constituency_code &&
      (if optStrTruthy source_doc_ref then p.source_doc_ref == source_doc_ref
       else p.source_doc_ref == none))

/-- Next autoincrement id for the project table. -/
def nextProjectId (projects : List Project) : Nat :=
  (projects.foldr (fun p m => max p.id m) 0) + 1

/-- `setattr(existing, k, v)` for every payload entry (import_projects.py
lines 104-105): full replace of the payload fields; `id` and
`last_updated` are not in the payload and stay. -/
def applyPayload (p : Project) (pl : ImportPayload) : Project :=
  { p with
    title := pl.title
    description := pl.description
    category := pl.category
    status := pl.status
    budget := pl.budget
    spent := pl.spent
    progress := pl.progress
    constituency_code := pl.constituency_code
    start_date := pl.start_date
    completion_date := pl.completion_date
    is_mock := pl.is_mock
    source_name := pl.source_name
    source_url := pl.source_url
    source_doc_ref := pl.source_doc_ref }

/-- `Project(**payload)` committed: autoincrement id and server-side
`last_updated` (`default_factory=datetime.utcnow`) assigned. -/
def newProject (id now : Nat) (pl : ImportPayload) : Project :=
  { id := id
    title := pl.title
    description := pl.description
    category := pl.category
    status := pl.status
    budget := pl.budget
    spent := pl.spent
    progress := pl.progress
    constituency_code := pl.constituency_code
    start_date := pl.start_date
    completion_date := pl.completion_date
    is_mock := pl.is_mock
    source_name := pl.source_name
    source_url := pl.source_url
    source_doc_ref := pl.source_doc_ref
    last_updated := now }

/-- Replace the first project row bearing primary key `pid` with `p'`. -/
def replaceProjectById (projects : List Project) (pid : Nat) (p' : Project) :
    List Project :=
  match projects with
  | [] => []
  | q :: qs => if q.id == pid then p' :: qs else q :: replaceProjectById qs pid p'

/-- Outcome of one CSV row. -/
inductive RowOutcome
  | skipped | created | updated
deriving DecidableEq, Repr

/-- One iteration of the `for row in reader` loop (import_projects.py
lines 73-111): skip-and-continue on missing title/constituency_code,
abort (`none`, the uncaught exception) on a validation failure, otherwise
upsert against the session state by the natural key. -/
def processRow (projects : List Project) (now : Nat) (row : RawRow) :
    Option (List Project × RowOutcome) :=
  let title := pyStrip row.title
  let constituency_code := pyStrip row.constituency_code
  if title = "" || constituency_code = "" then some (projects, .skipped)
  else
    let source_doc_ref := strippedOrNone row.source_doc_ref
    let existing := find_existing projects title constituency_code source_doc_ref
    match buildPayload row with
    | none => none
    | some pl =>
      match existing with
      | some p => some (replaceProjectById projects p.id (applyPayload p pl), .updated)
      | none => some (projects ++ [newProject (nextProjectId projects) now pl], .created)

/-- The row loop with the created/updated counters. -/
def importLoop (projects : List Project) (now : Nat) (created updated : Nat) :
    List RawRow → Option (List Project × Nat × Nat)
  | [] => some (projects, created, updated)
  | row :: rest =>
    match processRow projects now row with
    | none => none
    | some (projects', .skipped) => importLoop projects' now created updated rest
    | some (projects', .created) => importLoop projects' now (created + 1) updated rest
    | some (projects', .updated) => importLoop projects' now created (updated + 1) rest

/-- `import_csv` (import_projects.py lines 65-115): process the rows in
order within one session and commit at the end. `none` models the uncaught
validation exception: it propagates out of the session context before
`session.commit()`, so nothing of the batch is persisted. -/
def import_csv (projects : List Project) (now : Nat) (rows : List RawRow) :
    Option (List Project × Nat × Nat) :=
  importLoop projects now 0 0 rows

/-! ### Helper lemmas -/

deriving instance DecidableEq for Except

theorem charListLe_of_not (as bs : List Char) (h : charListLe as bs = false) :
    charListLe bs as = true := by
  induction as generalizing bs with
  | nil => simp [charListLe] at h
  | cons a as ih =>
    cases bs with
    | nil => simp [charListLe]
    | cons b bs =>
      simp only [charListLe] at h ⊢
      by_cases hab : a.toNat = b.toNat
      · rw [if_pos hab] at h
        rw [if_pos hab.symm]
        exact ih bs h
      · rw [if_neg hab] at h
        simp only [decide_eq_false_iff_not, not_lt] at h
        rw [if_neg (fun hba => hab hba.symm)]
        simp only [decide_eq_true_eq]
        omega

theorem charListLe_trans (as bs cs : List Char) (h₁ : charListLe as bs = true)
    (h₂ : charListLe bs cs = true) : charListLe as cs = true := by
  induction as generalizing bs cs with
  | nil => simp [charListLe]
  | cons a as ih =>
    cases bs with
    | nil => simp [charListLe] at h₁
    | cons b bs =>
      cases cs with
      | nil => simp [charListLe] at h₂
      | cons c cs =>
        simp only [charListLe] at h₁ h₂ ⊢
        by_cases hab : a.toNat = b.toNat
        · rw [if_pos hab] at h₁
          by_cases hbc : b.toNat = c.toNat
          · rw [if_pos hbc] at h₂
            rw [if_pos (hab.trans hbc)]
            exact ih bs cs h₁ h₂
          · rw [if_neg hbc] at h₂
            simp only [decide_eq_true_eq] at h₂
            rw [if_neg (fun hac : a.toNat = c.toNat => by omega)]
            simp only [decide_eq_true_eq]
            omega
        · rw [if_neg hab] at h₁
          simp only [decide_eq_true_eq] at h₁
          by_cases hbc : b.toNat = c.toNat
          · rw [if_neg (fun hac : a.toNat = c.toNat => by omega)]
            simp only [decide_eq_true_eq]
            omega
          · rw [if_neg hbc] at h₂
            simp only [decide_eq_true_eq] at h₂
            rw [if_neg (fun hac : a.toNat = c.toNat => by omega)]
            simp only [decide_eq_true_eq]
            omega

theorem strLe_of_not (s t : String) (h : strLe s t = false) : strLe t s = true :=
  charListLe_of_not s.data t.data h

theorem strLe_trans (s t u : String) (h₁ : strLe s t = true) (h₂ : strLe t u = true) :
    strLe s u = true :=
  charListLe_trans s.data t.data u.data h₁ h₂

theorem mem_insertBy {α : Type} (le : α → α → Bool) (x y : α) (l : List α) :
    y ∈ insertBy le x l ↔ y = x ∨ y ∈ l := by
  induction l with
  | nil => simp [insertBy]
  | cons z zs ih =>
    simp only [insertBy]
    by_cases h : le x z = true
    · rw [if_pos h]
      simp [List.mem_cons]
    · rw [if_neg h]
      simp only [List.mem_cons, ih]
      tauto

theorem pairwise_insertBy {α : Type} (le : α → α → Bool)
    (htot : ∀ a b, le a b = false → le b a = true)
    (htrans : ∀ a b c, le a b = true → le b c = true → le a c = true)
    (x : α) (l : List α) (h : List.Pairwise (fun a b => le a b = true) l) :
    List.Pairwise (fun a b => le a b = true) (insertBy le x l) := by
  induction l with
  | nil => simp [insertBy]
  | cons y ys ih =>
    simp only [insertBy]
    by_cases hxy : le x y = true
    · rw [if_pos hxy]
      refine List.Pairwise.cons ?_ h
      intro z hz
      rcases List.mem_cons.mp hz with hz | hz
      · exact hz ▸ hxy
      · exact htrans x y z hxy ((List.pairwise_cons.mp h).1 z hz)
    · rw [if_neg hxy]
      refine List.Pairwise.cons ?_ (ih (List.pairwise_cons.mp h).2)
      intro z hz
      rcases (mem_insertBy le x z ys).mp hz with hz | hz
      · exact hz ▸ htot x y (Bool.eq_false_iff.mpr hxy)
      · exact (List.pairwise_cons.mp h).1 z hz

theorem pairwise_sortBy {α : Type} (le : α → α → Bool)
    (htot : ∀ a b, le a b = false → le b a = true)
    (htrans : ∀ a b c, le a b = true → le b c = true → le a c = true)
    (l : List α) : List.Pairwise (fun a b => le a b = true) (sortBy le l) := by
  induction l with
  | nil => simp [sortBy]
  | cons x xs ih => exact pairwise_insertBy le htot htrans x (sortBy le xs) ih

theorem mem_id_lt_nextAwardId (awards : List ProcurementAward) (a : ProcurementAward)
    (h : a ∈ awards) : a.id < nextAwardId awards := by
  have : a.id ≤ awards.foldr (fun a m => max a.id m) 0 := by
    induction awards with
    | nil => cases h
    | cons b bs ih =>
      rcases List.mem_cons.mp h with h | h
      · subst h
        exact Nat.le_max_left _ _
      · exact Nat.le_trans (ih h) (Nat.le_max_right _ _)
  exact Nat.lt_succ_of_le this

theorem nextAwardId_not_present (awards : List ProcurementAward) :
    awards.any (fun b => b.id == nextAwardId awards) = false := by
  rw [Bool.eq_false_iff]
  intro h
  rcases List.any_eq_true.mp h with ⟨b, hb, hbid⟩
  exact Nat.ne_of_lt (mem_id_lt_nextAwardId awards b hb) (beq_iff_eq.mp hbid)

theorem replaceFirstAward_map_id_pid (awards : List ProcurementAward) (aid : Nat)
    (a a' : ProcurementAward) (h : awards.find? (fun x => x.id == aid) = some a)
    (hid : a'.id = a.id) (hpid : a'.project_id = a.project_id) :
    (replaceFirstAward awards aid a').map (fun x => (x.id, x.project_id)) =
      awards.map (fun x => (x.id, x.project_id)) := by
  induction awards with
  | nil => simp [List.find?] at h
  | cons b bs ih =>
    simp only [replaceFirstAward, List.find?] at h ⊢
    by_cases hb : (b.id == aid) = true
    · rw [hb] at h
      rw [if_pos hb]
      simp only [Option.some.injEq] at h
      subst h
      simp [hid, hpid]
    · rw [Bool.eq_false_iff.mpr hb] at h
      rw [if_neg hb]
      simp only [List.map_cons]
      rw [ih h]

theorem find?_replaceFirstAward (awards : List ProcurementAward) (aid : Nat)
    (a a' : ProcurementAward) (h : awards.find? (fun x => x.id == aid) = some a)
    (hid : (a'.id == aid) = true) :
    (replaceFirstAward awards aid a').find? (fun x => x.id == aid) = some a' := by
  induction awards with
  | nil => simp [List.find?] at h
  | cons b bs ih =>
    simp only [replaceFirstAward]
    by_cases hb : (b.id == aid) = true
    · rw [if_pos hb]
      simp [List.find?, hid]
    · rw [if_neg hb]
      simp only [List.find?, Bool.eq_false_iff.mpr hb]
      simp only [List.find?, Bool.eq_false_iff.mpr hb] at h
      exact ih h

theorem find?_updateFirstUser (users : List User) (uname : String) (u u' : User)
    (h : users.find? (fun v => v.username == uname) = some u)
    (hu' : (u'.username == uname) = true) :
    (updateFirstUser users uname u').find? (fun v => v.username == uname) = some u' := by
  induction users with
  | nil => simp [List.find?] at h
  | cons v vs ih =>
    simp only [updateFirstUser]
    by_cases hv : (v.username == uname) = true
    · rw [if_pos hv]
      simp [List.find?, hu']
    · rw [if_neg hv]
      simp only [List.find?, Bool.eq_false_iff.mpr hv]
      simp only [List.find?, Bool.eq_false_iff.mpr hv] at h
      exact ih h

theorem strippedOrNone_ne_empty (s v : String) (h : strippedOrNone s = some v) :
    v ≠ "" := by
  simp only [strippedOrNone] at h
  by_cases he : pyStrip s = ""
  · rw [if_pos he] at h
    cases h
  · rw [if_neg he] at h
    simp only [Option.some.injEq] at h
    exact h ▸ he

/-! ### Claim theorems -/

/-- C1: the claim says the ProcurementAward store declares `project_id`
unique, so a `create_award` race whose pre-checks both pass is stopped by
the storage constraint and the loser observes the duplicate-award error.
In the source the column is declared `Field(foreign_key="project.id",
index=True)` with no `unique=True` (`projectIdFlags.unique = false`),
although the router's own comment asserts "your model uses unique=True on
project_id". Consequently, when both concurrent calls' pre-checks read the
initial empty award table, both storage commits succeed and the resulting
state holds two awards for project 1 — the loser observes no
`DuplicateAward` at all (and the router has no try/except that could map a
constraint violation to one). -/
theorem award_store_admits_duplicate_project_awards :
    awardPreCheckPasses [] 1 = true ∧
    projectIdFlags.unique = false ∧
    awardInsertCommit [] (payloadToAward 1 0 { project_id := 1, contractor_id := 7 }) =
      .ok [payloadToAward 1 0 { project_id := 1, contractor_id := 7 }] ∧
    awardInsertCommit [payloadToAward 1 0 { project_id := 1, contractor_id := 7 }]
        (payloadToAward 2 0 { project_id := 1, contractor_id := 9 }) =
      .ok [payloadToAward 1 0 { project_id := 1, contractor_id := 7 },
           payloadToAward 2 0 { project_id := 1, contractor_id := 9 }] ∧
    ([payloadToAward 1 0 { project_id := 1, contractor_id := 7 },
      payloadToAward 2 0 { project_id := 1, contractor_id := 9 }].filter
        (fun a => a.project_id == 1)).length = 2 := by
  decide

/-- C2: whenever some stored award already carries the requested
project_id, `create_award` fails with the 400 duplicate-award error for
every contractor and field payload, and the store is returned unchanged
(the error is raised by the pre-check before the insert path). -/
theorem create_award_duplicate_conflict (db : AppDB) (now : Nat)
    (payload : ProcurementAwardCreate)
    (h : db.awards.any (fun a => a.project_id == payload.project_id) = true) :
    create_award db now payload =
      (.httpError (.badRequest "This project already has an award"), db) := by
  obtain ⟨a, ha, hpa⟩ := List.any_eq_true.mp h
  by_cases hpre : awardPreCheckPasses db.awards payload.project_id = true
  · exfalso
    simp only [awardPreCheckPasses, Option.isNone_iff_eq_none] at hpre
    exact List.find?_eq_none.mp hpre a ha hpa
  · simp [create_award, Bool.eq_false_iff.mpr hpre]

/-- Witness for C2 at the spec's own scenario: project 42 already awarded
to contractor 7; the attempt with contractor 9 gets the Conflict error and
the store is unchanged. -/
theorem create_award_duplicate_conflict_witness :
    (({ awards := [{ id := 1, project_id := 42, contractor_id := 7 }] } : AppDB).awards.any
        (fun a => a.project_id == (42 : Nat)) = true) ∧
    create_award { awards := [{ id := 1, project_id := 42, contractor_id := 7 }] } 0
        { project_id := 42, contractor_id := 9 } =
      (.httpError (.badRequest "This project already has an award"),
       { awards := [{ id := 1, project_id := 42, contractor_id := 7 }] }) :=
  ⟨by decide,
   create_award_duplicate_conflict
     { awards := [{ id := 1, project_id := 42, contractor_id := 7 }] } 0
     { project_id := 42, contractor_id := 9 } (by decide)⟩

/-- C4 counterexample: on the empty store (so project_id 1 references no
existing Project), `create_award` does not fail with any typed NotFound
domain error — the pre-check passes, the insert is attempted, and the store
is mutated. This refutes the claim that a missing-project violation is
resolved before any storage mutation and surfaced as a typed error. -/
theorem create_award_unknown_project_not_found_refuted :
    (({} : AppDB).projects = []) ∧
    create_award {} 0 { project_id := 1, contractor_id := 1 } =
      (.ok (payloadToAward 1 0 { project_id := 1, contractor_id := 1 }),
       { awards := [payloadToAward 1 0 { project_id := 1, contractor_id := 1 }] }) := by
  decide

/-- C4 amended: `create_award` performs no existence check on `project_id`
or `contractor_id`. Whenever no stored award carries the requested
project_id — in particular when that project_id references no existing
Project at all — the handler proceeds past the duplicate pre-check and
commits the insert, returning the new award; no typed NotFound error is
produced at the domain layer (referential integrity is left to the
storage-level foreign keys). -/
theorem create_award_no_existence_check (db : AppDB) (now : Nat)
    (payload : ProcurementAwardCreate)
    (hproj : db.projects.all (fun q => q.id != payload.project_id) = true)
    (hawd : db.awards.all (fun a => a.project_id != payload.project_id) = true) :
    create_award db now payload =
      (.ok (payloadToAward (nextAwardId db.awards) now payload),
       { db with awards := db.awards ++ [payloadToAward (nextAwardId db.awards) now payload] }) := by
  have hpre : awardPreCheckPasses db.awards payload.project_id = true := by
    simp only [awardPreCheckPasses, Option.isNone_iff_eq_none]
    rw [List.find?_eq_none]
    intro a ha hpa
    have hne := List.all_eq_true.mp hawd a ha
    simp only [bne_iff_ne, ne_eq] at hne
    exact hne (beq_iff_eq.mp hpa)
  have hids := nextAwardId_not_present db.awards
  simp [create_award, hpre, awardInsertCommit, payloadToAward, hids, projectIdFlags]

/-- Store used by the witness of C4's amended claim: one project with id 5
and nothing else. -/
def c4WitnessDb : AppDB :=
  { projects := [{ id := 5, title := "P", category := .Other, budget := ⟨false, 0, 0⟩, constituency_code := "001", last_updated := 0 }] }

/-- Witness for C4's amended claim: in `c4WitnessDb`, project_id 1 is
unknown and unawarded, and the create call commits the insert. -/
theorem create_award_no_existence_check_witness :
    (c4WitnessDb.projects.all (fun q => q.id != (1 : Nat)) = true) ∧
    (c4WitnessDb.awards.all (fun a => a.project_id != (1 : Nat)) = true) ∧
    create_award c4WitnessDb 0 { project_id := 1, contractor_id := 1 } =
      (.ok (payloadToAward 1 0 { project_id := 1, contractor_id := 1 }),
       { c4WitnessDb with awards := [payloadToAward 1 0 { project_id := 1, contractor_id := 1 }] }) :=
  ⟨by decide, by decide,
   create_award_no_existence_check c4WitnessDb 0 { project_id := 1, contractor_id := 1 }
     (by decide) (by decide)⟩

/-- C8: `update_award` has PATCH semantics. With an unknown award_id it
fails 404 leaving every award unchanged; with a known award_id it applies
exactly the request-present fields: every field absent from the request —
and the never-updatable `id`, `project_id`, `created_at` — retains its
stored value, and the stored row under that id becomes the patched row. -/
theorem update_award_patch_semantics (db : AppDB) (aid : Nat)
    (u : ProcurementAwardUpdate) :
    (db.awards.find? (fun a => a.id == aid) = none →
      update_award db aid u = (.httpError (.notFound "Award not found"), db)) ∧
    (∀ a, db.awards.find? (fun a => a.id == aid) = some a →
      update_award db aid u =
        (.ok (applyAwardUpdate a u),
         { db with awards := replaceFirstAward db.awards aid (applyAwardUpdate a u) }) ∧
      ((update_award db aid u).2).awards.find? (fun b => b.id == aid) =
        some (applyAwardUpdate a u) ∧
      (applyAwardUpdate a u).id = a.id ∧
      (applyAwardUpdate a u).project_id = a.project_id ∧
      (applyAwardUpdate a u).created_at = a.created_at ∧
      (u.contractor_id = none → (applyAwardUpdate a u).contractor_id = a.contractor_id) ∧
      (u.tender_id = none → (applyAwardUpdate a u).tender_id = a.tender_id) ∧
      (u.procurement_method = none →
        (applyAwardUpdate a u).procurement_method = a.procurement_method) ∧
      (u.contract_value = none → (applyAwardUpdate a u).contract_value = a.contract_value) ∧
      (u.award_date = none → (applyAwardUpdate a u).award_date = a.award_date) ∧
      (u.contractor_share_hint = none →
        (applyAwardUpdate a u).contractor_share_hint = a.contractor_share_hint) ∧
      (u.performance_flag = none →
        (applyAwardUpdate a u).performance_flag = a.performance_flag) ∧
      (u.performance_flag_reason = none →
        (applyAwardUpdate a u).performance_flag_reason = a.performance_flag_reason)) := by
  constructor
  · intro h
    simp [update_award, h]
  · intro a h
    have hok : update_award db aid u =
        (.ok (applyAwardUpdate a u),
         { db with awards := replaceFirstAward db.awards aid (applyAwardUpdate a u) }) := by
      simp [update_award, h]
    refine ⟨hok, ?_, rfl, rfl, rfl, ?_, ?_, ?_, ?_, ?_, ?_, ?_, ?_⟩
    · rw [hok]
      exact find?_replaceFirstAward db.awards aid a (applyAwardUpdate a u) h
        (by simpa [applyAwardUpdate] using List.find?_some h)
    all_goals intro h'
    all_goals simp [applyAwardUpdate, h']

/-- Award stored by the witness of C8. -/
def c8Award : ProcurementAward :=
  { id := 1, project_id := 2, contractor_id := 3, tender_id := some "T-1", contract_value := some ⟨false, 100, 0⟩ }

/-- Update request of the witness of C8: only `tender_id` is present. -/
def c8Update : ProcurementAwardUpdate :=
  { tender_id := some (some "T-2") }

/-- Witness for C8: patching only `tender_id` of award 1 leaves its
`contract_value` (absent from the request) and `project_id` unchanged. -/
theorem update_award_patch_semantics_witness :
    (({ awards := [c8Award] } : AppDB).awards.find? (fun a => a.id == (1 : Nat)) =
      some c8Award) ∧
    update_award { awards := [c8Award] } 1 c8Update =
      (.ok (applyAwardUpdate c8Award c8Update),
       { awards := [applyAwardUpdate c8Award c8Update] }) ∧
    c8Update.contract_value = none ∧
    (applyAwardUpdate c8Award c8Update).contract_value = c8Award.contract_value ∧
    (applyAwardUpdate c8Award c8Update).tender_id = some "T-2" ∧
    (applyAwardUpdate c8Award c8Update).project_id = c8Award.project_id :=
  ⟨by decide,
   (((update_award_patch_semantics { awards := [c8Award] } 1 c8Update).2 c8Award
      (by decide)).1),
   by decide, by decide, by decide, by decide⟩

/-- C9: the Access Guard rejects disabled principals with 403 Forbidden.
Even when a disabled account logs in with the correct password — the login
handler checks no account status, sets `last_login`, and issues a token for
the username — the subsequent guarded `/auth/me` request with that token's
subject is rejected at `get_current_user` with the Forbidden
account-disabled error rather than served. -/
theorem disabled_account_rejected_at_guard (users : List User)
    (verify : String → String → Bool) (uname pw : String) (now : Nat) (u : User)
    (hne : uname ≠ "")
    (hfind : users.find? (fun v => v.username == uname) = some u)
    (hpw : verify u.password_hash pw = true)
    (hdis : u.status = .disabled) :
    (login users verify uname pw now).1 = .ok uname ∧
    auth_me (login users verify uname pw now).2 (.payload (some uname)) =
      .httpError (.forbidden "Account disabled") := by
  have huser : (u.username == uname) = true :=
    @List.find?_some User (fun v => v.username == uname) u users hfind
  have hlogin : login users verify uname pw now =
      (.ok uname, updateFirstUser users uname { u with last_login := some now }) := by
    simp [login, hfind, hpw]
  have hfind' := find?_updateFirstUser users uname u { u with last_login := some now }
    hfind huser
  constructor
  · rw [hlogin]
  · rw [hlogin]
    simp only [auth_me, get_current_user, Option.getD_some]
    rw [if_neg hne, hfind']
    simp [hdis]

/-- Disabled user of the C9 witness. -/
def c9User : User :=
  { id := 1, username := "alice", password_hash := "pw", status := .disabled }

/-- Witness for C9: alice is disabled yet holds the correct password; login
succeeds in issuing a token and `/auth/me` with it is rejected 403. -/
theorem disabled_account_rejected_at_guard_witness :
    ("alice" : String) ≠ "" ∧
    ([c9User].find? (fun v => v.username == "alice") = some c9User) ∧
    ((fun h p => h == p) : String → String → Bool) c9User.password_hash "pw" = true ∧
    c9User.status = .disabled ∧
    (login [c9User] (fun h p => h == p) "alice" "pw" 7).1 = .ok "alice" ∧
    auth_me (login [c9User] (fun h p => h == p) "alice" "pw" 7).2
        (.payload (some "alice")) = .httpError (.forbidden "Account disabled") := by
  refine ⟨by decide, by decide, by decide, by decide, ?_, ?_⟩
  · exact (disabled_account_rejected_at_guard [c9User] (fun h p => h == p)
      "alice" "pw" 7 c9User (by decide) (by decide) (by decide) (by decide)).1
  · exact (disabled_account_rejected_at_guard [c9User] (fun h p => h == p)
      "alice" "pw" 7 c9User (by decide) (by decide) (by decide) (by decide)).2

/-- C10: `update_award` can never re-point an award at another project:
the update schema carries no `project_id` field, `applyAwardUpdate`
preserves `project_id` on every award, and the stored (id, project_id)
association of every award row is identical before and after any
`update_award` call. -/
theorem update_award_preserves_project_binding (db : AppDB) (aid : Nat)
    (u : ProcurementAwardUpdate) :
    ((update_award db aid u).2).awards.map (fun a => (a.id, a.project_id)) =
      db.awards.map (fun a => (a.id, a.project_id)) ∧
    ∀ a : ProcurementAward, (applyAwardUpdate a u).project_id = a.project_id := by
  constructor
  · match hfind : db.awards.find? (fun a => a.id == aid) with
    | none => simp [update_award, hfind]
    | some a =>
      simp only [update_award, hfind]
      exact replaceFirstAward_map_id_pid db.awards aid a (applyAwardUpdate a u) hfind rfl rfl
  · intro a
    rfl

/-- C5 counterexample: a batch with an invalid-category record ("Roads")
followed by a valid record aborts entirely — `import_csv` raises (`none`),
so the subsequent valid row is NOT processed, although alone that same row
would have been created. This refutes the claim that a field-validation
failure rejects only the offending record while the import continues. -/
theorem import_batch_failure_isolation_refuted :
    import_csv [] 0
        [{ title := "Bad", constituency_code := "001", category := "Roads" },
         { title := "Good", constituency_code := "001" }] = none ∧
    import_csv [] 0 [{ title := "Good", constituency_code := "001" }] =
      some ([{ id := 1, title := "Good", category := .Other,
               budget := DecimalVal.zero, constituency_code := "001",
               is_mock := false, last_updated := 0 }], 1, 0) := by
  decide

/-- C5 amended: a record whose fields fail validation (invalid category or
status enum value, unparseable date, non-numeric budget) raises an
uncaught exception that aborts the whole import — no subsequent row of the
batch is processed and nothing is committed. (Only records missing title
or constituency_code are skipped with the import continuing.) -/
theorem import_validation_aborts_batch (projects : List Project) (now : Nat)
    (r : RawRow) (rest : List RawRow)
    (ht : pyStrip r.title ≠ "")
    (hc : pyStrip r.constituency_code ≠ "")
    (hbad : buildPayload r = none) :
    import_csv projects now (r :: rest) = none := by
  have hrow : processRow projects now r = none := by
    simp [processRow, ht, hc, hbad]
  simp [import_csv, importLoop, hrow]

/-- Witness for C5's amended claim: the invalid-category record with
nonempty key fields aborts a batch that continues with a valid row. -/
theorem import_validation_aborts_batch_witness :
    pyStrip ("Bad" : String) ≠ "" ∧
    pyStrip ("001" : String) ≠ "" ∧
    buildPayload { title := "Bad", constituency_code := "001", category := "Roads" } = none ∧
    import_csv [] 0
        [{ title := "Bad", constituency_code := "001", category := "Roads" },
         { title := "Good", constituency_code := "001" }] = none :=
  ⟨by decide, by decide, by decide,
   import_validation_aborts_batch [] 0
     { title := "Bad", constituency_code := "001", category := "Roads" }
     [{ title := "Good", constituency_code := "001" }]
     (by decide) (by decide) (by decide)⟩

/-- The 14 payload fields of a stored project row (the fields the import
upsert writes), used to state "the stored row carries this record's
values". -/
def payloadOfProject (p : Project) : ImportPayload :=
  { title := p.title
    description := p.description
    category := p.category
    status := p.status
    budget := p.budget
    spent := p.spent
    progress := p.progress
    constituency_code := p.constituency_code
    start_date := p.start_date
    completion_date := p.completion_date
    is_mock := p.is_mock
    source_name := p.source_name
    source_url := p.source_url
    source_doc_ref := p.source_doc_ref }

theorem payloadOfProject_applyPayload (p : Project) (pl : ImportPayload) :
    payloadOfProject (applyPayload p pl) = pl := rfl

theorem buildPayload_key_fields (row : RawRow) (pl : ImportPayload)
    (h : buildPayload row = some pl) :
    pl.title = pyStrip row.title ∧
    pl.constituency_code = pyStrip row.constituency_code ∧
    pl.source_doc_ref = strippedOrNone row.source_doc_ref := by
  simp only [buildPayload, bind, Option.bind_eq_some, Option.some.injEq] at h
  obtain ⟨cat, hcat, st, hst, b, hb, sp, hsp, pr, hpr, sd, hsd, cd, hcd, hpl⟩ := h
  subst hpl
  exact ⟨rfl, rfl, rfl⟩

theorem mem_id_lt_nextProjectId (projects : List Project) (p : Project)
    (h : p ∈ projects) : p.id < nextProjectId projects := by
  have : p.id ≤ projects.foldr (fun p m => max p.id m) 0 := by
    induction projects with
    | nil => cases h
    | cons q qs ih =>
      rcases List.mem_cons.mp h with h | h
      · subst h
        exact Nat.le_max_left _ _
      · exact Nat.le_trans (ih h) (Nat.le_max_right _ _)
  exact Nat.lt_succ_of_le this

theorem replaceProjectById_append_fresh (projects : List Project) (pid : Nat)
    (x x' : Project) (hall : ∀ q ∈ projects, (q.id == pid) = false)
    (hx : (x.id == pid) = true) :
    replaceProjectById (projects ++ [x]) pid x' = projects ++ [x'] := by
  induction projects with
  | nil => simp [replaceProjectById, hx]
  | cons q qs ih =>
    simp only [List.cons_append, replaceProjectById]
    rw [if_neg (by simp [hall q (List.mem_cons_self q qs)])]
    exact congrArg (List.cons q) (ih (fun q hq => hall q (List.mem_cons_of_mem _ hq)))

theorem find_existing_append_new (projects : List Project) (x : Project)
    (T C : String) (S : Option String)
    (hSne : ∀ s, S = some s → s ≠ "")
    (hnone : find_existing projects T C S = none)
    (hT : x.title = T) (hC : x.constituency_code = C)
    (hS : x.source_doc_ref = S) :
    find_existing (projects ++ [x]) T C S = some x := by
  unfold find_existing at hnone ⊢
  rw [List.find?_append, hnone, Option.none_or]
  refine List.find?_cons_of_pos [] ?_
  rw [hT, hC, hS]
  cases S with
  | none => simp [optStrTruthy]
  | some s =>
    have hs : s ≠ "" := hSne s rfl
    simp [optStrTruthy, hs]

theorem key_filter_of_find_none (projects : List Project) (T C : String)
    (S : Option String)
    (hSne : ∀ s, S = some s → s ≠ "")
    (hnone : find_existing projects T C S = none) :
    projects.filter
      (fun p => p.title == T && p.constituency_code == C && p.source_doc_ref == S) = [] := by
  rw [List.filter_eq_nil_iff]
  intro p hp hkey
  have hnp := List.find?_eq_none.mp hnone p hp
  apply hnp
  simp only [Bool.and_eq_true] at hkey ⊢
  refine ⟨⟨hkey.1.1, hkey.1.2⟩, ?_⟩
  cases S with
  | none => simpa [optStrTruthy] using hkey.2
  | some s =>
    have hs : s ≠ "" := hSne s rfl
    simpa [optStrTruthy, hs] using hkey.2

theorem find_existing_null_matches_null (projects : List Project) (T C : String)
    (q : Project) (h : find_existing projects T C none = some q) :
    q.source_doc_ref = none := by
  unfold find_existing at h
  have hq := @List.find?_some Project _ q projects h
  simp only [optStrTruthy, Bool.and_eq_true, beq_iff_eq] at hq
  simpa using hq.2

/-- C6: the import upsert is idempotent on the natural key
(title, constituency_code, source_doc_ref), where a null source_doc_ref
matches only rows whose source_doc_ref is also null (`find_existing`
filters with IS NULL, not a wildcard). Processing two valid records with
the same natural key against a store with no prior match reports Created
then Updated, and leaves exactly one row with that key, carrying the
second record's payload values (full replace). -/
theorem upsert_natural_key_idempotent (projects : List Project)
    (now₁ now₂ : Nat) (r₁ r₂ : RawRow) (pl₁ pl₂ : ImportPayload)
    (h₁ : buildPayload r₁ = some pl₁) (h₂ : buildPayload r₂ = some pl₂)
    (ht₁ : pyStrip r₁.title ≠ "") (hc₁ : pyStrip r₁.constituency_code ≠ "")
    (hkt : pyStrip r₂.title = pyStrip r₁.title)
    (hkc : pyStrip r₂.constituency_code = pyStrip r₁.constituency_code)
    (hks : strippedOrNone r₂.source_doc_ref = strippedOrNone r₁.source_doc_ref)
    (hnone : find_existing projects (pyStrip r₁.title) (pyStrip r₁.constituency_code)
      (strippedOrNone r₁.source_doc_ref) = none) :
    processRow projects now₁ r₁ =
      some (projects ++ [newProject (nextProjectId projects) now₁ pl₁], .created) ∧
    processRow (projects ++ [newProject (nextProjectId projects) now₁ pl₁]) now₂ r₂ =
      some (projects ++
        [applyPayload (newProject (nextProjectId projects) now₁ pl₁) pl₂], .updated) ∧
    (projects ++ [applyPayload (newProject (nextProjectId projects) now₁ pl₁) pl₂]).filter
        (fun p => p.title == pl₂.title && p.constituency_code == pl₂.constituency_code
          && p.source_doc_ref == pl₂.source_doc_ref) =
      [applyPayload (newProject (nextProjectId projects) now₁ pl₁) pl₂] ∧
    payloadOfProject (applyPayload (newProject (nextProjectId projects) now₁ pl₁) pl₂) =
      pl₂ ∧
    (∀ ps : List Project, ∀ q, find_existing ps (pyStrip r₁.title)
      (pyStrip r₁.constituency_code) none = some q → q.source_doc_ref = none) := by
  obtain ⟨hpt₁, hpc₁, hps₁⟩ := buildPayload_key_fields r₁ pl₁ h₁
  obtain ⟨hpt₂, hpc₂, hps₂⟩ := buildPayload_key_fields r₂ pl₂ h₂
  have hSne : ∀ s, strippedOrNone r₁.source_doc_ref = some s → s ≠ "" :=
    fun s hs => strippedOrNone_ne_empty r₁.source_doc_ref s hs
  have ht₂ : pyStrip r₂.title ≠ "" := by rw [hkt]; exact ht₁
  have hc₂ : pyStrip r₂.constituency_code ≠ "" := by rw [hkc]; exact hc₁
  have hfindx : find_existing
      (projects ++ [newProject (nextProjectId projects) now₁ pl₁])
      (pyStrip r₂.title) (pyStrip r₂.constituency_code)
      (strippedOrNone r₂.source_doc_ref) =
      some (newProject (nextProjectId projects) now₁ pl₁) := by
    rw [hkt, hkc, hks]
    exact find_existing_append_new projects _ _ _ _ hSne hnone hpt₁ hpc₁ hps₁
  have hfresh : ∀ q ∈ projects, (q.id == nextProjectId projects) = false :=
    fun q hq => beq_eq_false_iff_ne.mpr (Nat.ne_of_lt (mem_id_lt_nextProjectId projects q hq))
  have hreplace : replaceProjectById
      (projects ++ [newProject (nextProjectId projects) now₁ pl₁])
      (nextProjectId projects)
      (applyPayload (newProject (nextProjectId projects) now₁ pl₁) pl₂) =
      projects ++ [applyPayload (newProject (nextProjectId projects) now₁ pl₁) pl₂] :=
    replaceProjectById_append_fresh projects (nextProjectId projects) _ _ hfresh
      (by simp [newProject])
  refine ⟨?_, ?_, ?_, rfl, fun ps q hq => find_existing_null_matches_null ps _ _ q hq⟩
  · simp [processRow, ht₁, hc₁, h₁, hnone]
  · simp only [processRow, h₂, hfindx]
    rw [if_neg (by simp [ht₂, hc₂])]
    simpa using hreplace
  · rw [List.filter_append]
    have hkey₂ : projects.filter
        (fun p => p.title == pl₂.title && p.constituency_code == pl₂.constituency_code
          && p.source_doc_ref == pl₂.source_doc_ref) = [] := by
      rw [hpt₂, hpc₂, hps₂, hkt, hkc, hks]
      exact key_filter_of_find_none projects _ _ _ hSne hnone
    rw [hkey₂]
    simp [applyPayload]

/-- First imported record of the C6 witness. -/
def c6Row1 : RawRow :=
  { title := "Borehole A", constituency_code := "001", budget := "100" }

/-- Second imported record of the C6 witness: same natural key (title,
constituency_code, absent source_doc_ref), different field values. -/
def c6Row2 : RawRow :=
  { title := "Borehole A", constituency_code := "001", budget := "250", status := "Ongoing" }

/-- Payload built from `c6Row1`. -/
def c6Payload1 : ImportPayload :=
  { title := "Borehole A", description := none, category := .Other, status := .Planned,
    budget := ⟨false, 100, 0⟩, spent := none, progress := none, constituency_code := "001",
    start_date := none, completion_date := none, is_mock := false, source_name := none,
    source_url := none, source_doc_ref := none }

/-- Payload built from `c6Row2`. -/
def c6Payload2 : ImportPayload :=
  { title := "Borehole A", description := none, category := .Other, status := .Ongoing,
    budget := ⟨false, 250, 0⟩, spent := none, progress := none, constituency_code := "001",
    start_date := none, completion_date := none, is_mock := false, source_name := none,
    source_url := none, source_doc_ref := none }

/-- Witness for C6: upserting `c6Row1` then `c6Row2` into the empty store
reports Created then Updated and leaves exactly one row with the shared
natural key, carrying `c6Row2`'s payload values. -/
theorem upsert_natural_key_idempotent_witness :
    buildPayload c6Row1 = some c6Payload1 ∧
    buildPayload c6Row2 = some c6Payload2 ∧
    pyStrip c6Row1.title ≠ "" ∧
    pyStrip c6Row1.constituency_code ≠ "" ∧
    pyStrip c6Row2.title = pyStrip c6Row1.title ∧
    pyStrip c6Row2.constituency_code = pyStrip c6Row1.constituency_code ∧
    strippedOrNone c6Row2.source_doc_ref = strippedOrNone c6Row1.source_doc_ref ∧
    find_existing [] (pyStrip c6Row1.title) (pyStrip c6Row1.constituency_code)
      (strippedOrNone c6Row1.source_doc_ref) = none ∧
    (processRow [] 1 c6Row1 =
        some ([] ++ [newProject (nextProjectId []) 1 c6Payload1], .created) ∧
      processRow ([] ++ [newProject (nextProjectId []) 1 c6Payload1]) 2 c6Row2 =
        some ([] ++
          [applyPayload (newProject (nextProjectId []) 1 c6Payload1) c6Payload2], .updated) ∧
      ([] ++ [applyPayload (newProject (nextProjectId []) 1 c6Payload1) c6Payload2]).filter
          (fun p => p.title == c6Payload2.title
            && p.constituency_code == c6Payload2.constituency_code
            && p.source_doc_ref == c6Payload2.source_doc_ref) =
        [applyPayload (newProject (nextProjectId []) 1 c6Payload1) c6Payload2] ∧
      payloadOfProject (applyPayload (newProject (nextProjectId []) 1 c6Payload1) c6Payload2) =
        c6Payload2 ∧
      (∀ ps : List Project, ∀ q, find_existing ps (pyStrip c6Row1.title)
        (pyStrip c6Row1.constituency_code) none = some q → q.source_doc_ref = none)) :=
  ⟨by decide, by decide, by decide, by decide, by decide, by decide, by decide, by decide,
   upsert_natural_key_idempotent [] 1 2 c6Row1 c6Row2 c6Payload1 c6Payload2
     (by decide) (by decide) (by decide) (by decide) (by decide) (by decide) (by decide)
     (by decide)⟩

/-- C7: `read_projects` recognizes exactly the six documented sort keys
with default `last_updated_desc`: every sort string outside the six takes
the same if/elif fall-through as the default, so the result equals the
default-sorted result (silent fallback, no error); and under `title_asc`
the titles of the returned page are lexicographically non-decreasing. -/
theorem list_projects_sort_semantics (db : AppDB) (cc : Option String)
    (cat : Option ProjectCategory) (st : Option ProjectStatus)
    (off lim : Nat) (sort : String)
    (hs : sort ∉ (["id_asc", "id_desc", "last_updated_asc", "last_updated_desc",
      "title_asc", "title_desc"] : List String)) :
    read_projects db cc cat st sort off lim =
      read_projects db cc cat st "last_updated_desc" off lim ∧
    List.Pairwise (fun v₁ v₂ => strLe v₁.title v₂.title = true)
      (read_projects db cc cat st "title_asc" off lim) := by
  constructor
  · simp only [List.mem_cons, List.not_mem_nil, not_or, or_false] at hs
    obtain ⟨n₁, n₂, n₃, n₄, n₅, n₆⟩ := hs
    have h₁ : sortSpec sort = (.byLastUpdated, .descending) := by
      simp [sortSpec, n₁, n₂, n₃, n₅, n₆]
    have h₂ : sortSpec "last_updated_desc" = (.byLastUpdated, .descending) := by decide
    simp only [read_projects, h₁, h₂]
  · have h₃ : sortSpec "title_asc" = (.byTitle, .ascending) := by decide
    simp only [read_projects, h₃]
    rw [List.pairwise_map]
    have hsorted := pairwise_sortBy (rowLe (.byTitle, .ascending))
      (fun a b h => strLe_of_not _ _ h)
      (fun a b c h₁ h₂ => strLe_trans _ _ _ h₁ h₂)
      (applyFilters cc cat st (joinRows db))
    have hdrop := List.Pairwise.sublist (List.drop_sublist off _) hsorted
    have htake := List.Pairwise.sublist (List.take_sublist lim _) hdrop
    exact htake.imp (fun h => h)

/-- Store of the C7 witness: two projects of constituency 001 whose
insertion order is opposite to their title order. -/
def c7Db : AppDB :=
  { constituencies := [{ code := "001", name := "Kajiado North", county := "Kajiado", mp_name := "MP One" }],
    projects := [{ id := 1, title := "Z clinic", category := .Health, budget := ⟨false, 5, 0⟩, constituency_code := "001", last_updated := 9 }, { id := 2, title := "A borehole", category := .Water, budget := ⟨false, 7, 0⟩, constituency_code := "001", last_updated := 3 }] }

/-- Witness for C7 at the unrecognized sort string "bogus": the result
equals the default-sorted result, and the title_asc page (here evaluated
to its concrete titles) is non-decreasing. -/
theorem list_projects_sort_semantics_witness :
    ("bogus" : String) ∉ (["id_asc", "id_desc", "last_updated_asc", "last_updated_desc",
      "title_asc", "title_desc"] : List String) ∧
    (read_projects c7Db none none none "bogus" 0 20 =
      read_projects c7Db none none none "last_updated_desc" 0 20 ∧
    List.Pairwise (fun v₁ v₂ => strLe v₁.title v₂.title = true)
      (read_projects c7Db none none none "title_asc" 0 20)) ∧
    (read_projects c7Db none none none "title_asc" 0 20).map (fun v => v.title) =
      ["A borehole", "Z clinic"] ∧
    (read_projects c7Db none none none "bogus" 0 20).map (fun v => v.title) =
      ["Z clinic", "A borehole"] :=
  ⟨by decide,
   list_projects_sort_semantics c7Db none none none 0 20 "bogus" (by decide),
   by decide, by decide⟩

theorem mem_awardRows (db : AppDB) (p : Project) (c : Constituency) (r : JoinRow)
    (h : r ∈ awardRows db p c) : r.project = p ∧ r.constituency = c := by
  unfold awardRows at h
  cases hf : db.awards.filter (fun a => a.project_id == p.id) with
  | nil =>
    rw [hf] at h
    simp only [List.mem_singleton] at h
    subst h
    exact ⟨rfl, rfl⟩
  | cons a as =>
    rw [hf] at h
    obtain ⟨a', ha', hr⟩ := List.mem_flatMap.mp h
    cases hk : db.contractors.filter (fun k => k.id == a'.contractor_id) with
    | nil =>
      rw [hk] at hr
      simp only [List.mem_singleton] at hr
      subst hr
      exact ⟨rfl, rfl⟩
    | cons k ks =>
      rw [hk] at hr
      obtain ⟨k', hk', hr⟩ := List.mem_map.mp hr
      rw [← hr]
      exact ⟨rfl, rfl⟩

theorem awardRows_ne_nil (db : AppDB) (p : Project) (c : Constituency) :
    awardRows db p c ≠ [] := by
  unfold awardRows
  cases hf : db.awards.filter (fun a => a.project_id == p.id) with
  | nil => simp
  | cons a as =>
    intro hcontra
    simp only [List.flatMap_cons] at hcontra
    have hnil := (List.append_eq_nil.mp hcontra).1
    cases hk : db.contractors.filter (fun k => k.id == a.contractor_id) with
    | nil =>
      rw [hk] at hnil
      simp at hnil
    | cons k ks =>
      rw [hk] at hnil
      simp at hnil

theorem mem_projRows_project (db : AppDB) (q : Project) (r : JoinRow)
    (h : r ∈ projRows db q) : r.project = q := by
  unfold projRows at h
  obtain ⟨c', hc', hr⟩ := List.mem_flatMap.mp h
  exact (mem_awardRows db q c' r hr).1

theorem constituency_filter_eq_singleton (cs : List Constituency) (c : Constituency)
    (k : String) (hdist : cs.Pairwise (fun a b => a.code ≠ b.code))
    (hcmem : c ∈ cs) (hck : c.code = k) :
    cs.filter (fun x => x.code == k) = [c] := by
  induction cs with
  | nil => cases hcmem
  | cons d ds ih =>
    obtain ⟨hd, hds⟩ := List.pairwise_cons.mp hdist
    rcases List.mem_cons.mp hcmem with hcd | hcds
    · subst hcd
      rw [List.filter_cons_of_pos (by simp [hck])]
      have hnil : ds.filter (fun x => x.code == k) = [] := by
        rw [List.filter_eq_nil_iff]
        intro x hx hxk
        exact hd x hx (hck.symm ▸ (beq_iff_eq.mp hxk).symm ▸ rfl)
      rw [hnil]
    · rw [List.filter_cons_of_neg (by
        simp only [beq_iff_eq]
        intro hdk
        exact hd c hcds (hdk.trans hck.symm))]
      exact ih hds hcds

theorem flatMap_filter_project_id (ps : List Project) (p : Project)
    (g : Project → List JoinRow)
    (hdist : ps.Pairwise (fun a b => a.id ≠ b.id)) (hmem : p ∈ ps)
    (hg : ∀ q r, r ∈ g q → r.project = q) :
    (ps.flatMap g).filter (fun r => r.project.id == p.id) = g p := by
  induction ps with
  | nil => cases hmem
  | cons d ds ih =>
    obtain ⟨hd, hds⟩ := List.pairwise_cons.mp hdist
    rw [List.flatMap_cons, List.filter_append]
    rcases List.mem_cons.mp hmem with hpd | hpds
    · subst hpd
      have hself : (g p).filter (fun r => r.project.id == p.id) = g p := by
        rw [List.filter_eq_self]
        intro r hr
        rw [hg p r hr]
        simp
      have hnil : (ds.flatMap g).filter (fun r => r.project.id == p.id) = [] := by
        rw [List.filter_eq_nil_iff]
        intro r hr hrid
        obtain ⟨q, hq, hrq⟩ := List.mem_flatMap.mp hr
        rw [hg q r hrq] at hrid
        exact hd q hq (beq_iff_eq.mp hrid).symm
      rw [hself, hnil, List.append_nil]
    · have hnil : (g d).filter (fun r => r.project.id == p.id) = [] := by
        rw [List.filter_eq_nil_iff]
        intro r hr hrid
        rw [hg d r hr] at hrid
        exact hd p hpds (beq_iff_eq.mp hrid)
      rw [hnil, List.nil_append]
      exact ih hds hpds

/-- C3: for every stored project p (with the storage invariants that
primary keys are unique and p's constituency resolves), `read_project p.id`
returns a view whose constituency_name, county and mp_name come from the
Constituency row whose code equals p.constituency_code (inner join); when p
has no award, all five award/contractor view fields are null; when p has
exactly one award whose contractor row is absent, contractor_name is null
while the award fields are populated from the award (outer joins). -/
theorem get_project_join_semantics (db : AppDB) (p : Project) (c : Constituency)
    (hp : p ∈ db.projects)
    (hpid : db.projects.Pairwise (fun q₁ q₂ => q₁.id ≠ q₂.id))
    (hcid : db.constituencies.Pairwise (fun c₁ c₂ => c₁.code ≠ c₂.code))
    (hc : c ∈ db.constituencies) (hcode : c.code = p.constituency_code) :
    ∃ v, read_project db p.id = .ok v ∧
      v.constituency_name = c.name ∧ v.county = c.county ∧ v.mp_name = c.mp_name ∧
      (db.awards.filter (fun a => a.project_id == p.id) = [] →
        v.contractor_name = none ∧ v.tender_id = none ∧ v.procurement_method = none ∧
        v.contract_value = none ∧ v.award_date = none) ∧
      (∀ a, db.awards.filter (fun a => a.project_id == p.id) = [a] →
        db.contractors.filter (fun k => k.id == a.contractor_id) = [] →
        v.contractor_name = none ∧ v.tender_id = a.tender_id ∧
        v.procurement_method = a.procurement_method ∧
        v.contract_value = a.contract_value ∧ v.award_date = a.award_date) := by
  have hprow : ∀ q r, r ∈ projRows db q → r.project = q :=
    fun q r hr => mem_projRows_project db q r hr
  have hfilter : (joinRows db).filter (fun r => r.project.id == p.id) = awardRows db p c := by
    unfold joinRows
    rw [flatMap_filter_project_id db.projects p (projRows db) hpid hp hprow]
    unfold projRows
    rw [constituency_filter_eq_singleton db.constituencies c p.constituency_code hcid hc hcode]
    simp [List.flatMap_cons]
  cases hrows : awardRows db p c with
  | nil => exact absurd hrows (awardRows_ne_nil db p c)
  | cons r rest =>
    have hrmem : r ∈ awardRows db p c := by
      rw [hrows]
      exact List.mem_cons_self r rest
    obtain ⟨hrp, hrc⟩ := mem_awardRows db p c r hrmem
    have hread : read_project db p.id = .ok (mkView r) := by
      unfold read_project
      rw [hfilter, hrows]
    refine ⟨mkView r, hread, ?_, ?_, ?_, ?_, ?_⟩
    · simp [mkView, hrc]
    · simp [mkView, hrc]
    · simp [mkView, hrc]
    · intro haw
      have hsingle : awardRows db p c = [⟨p, c, none, none⟩] := by
        unfold awardRows
        rw [haw]
      rw [hsingle] at hrows
      injection hrows with h₁ h₂
      rw [← h₁]
      simp [mkView]
    · intro a haw hctr
      have hsingle : awardRows db p c = [⟨p, c, some a, none⟩] := by
        unfold awardRows
        rw [haw]
        simp [hctr]
      rw [hsingle] at hrows
      injection hrows with h₁ h₂
      rw [← h₁]
      simp [mkView]

/-- Constituency row of the C3 witness. -/
def c3Cst : Constituency :=
  { code := "001", name := "Kajiado North", county := "Kajiado", mp_name := "MP One" }

/-- Award-less project of the C3 witness. -/
def c3P1 : Project :=
  { id := 1, title := "Borehole A", category := .Water, budget := ⟨false, 2000000, 0⟩, constituency_code := "001", last_updated := 5 }

/-- Project of the C3 witness whose award has a dangling contractor. -/
def c3P2 : Project :=
  { id := 2, title := "Clinic B", category := .Health, budget := ⟨false, 900, 0⟩, constituency_code := "001", last_updated := 8 }

/-- Award of the C3 witness; contractor_id 99 resolves to no contractor. -/
def c3Award : ProcurementAward :=
  { id := 1, project_id := 2, contractor_id := 99, tender_id := some "T-9" }

/-- Store of the C3 witness: project 1 has no award; project 2 has an award
whose contractor_id 99 resolves to no contractor row. -/
def c3Db : AppDB :=
  { constituencies := [c3Cst],
    projects := [c3P1, c3P2],
    contractors := [],
    awards := [c3Award] }

/-- Witness for C3 at project 1 of `c3Db` (and, by direct evaluation, the
dangling-contractor shape at project 2: null contractor_name with the
award's tender_id populated). -/
theorem get_project_join_semantics_witness :
    c3P1 ∈ c3Db.projects ∧
    c3Db.projects.Pairwise (fun q₁ q₂ => q₁.id ≠ q₂.id) ∧
    c3Db.constituencies.Pairwise (fun c₁ c₂ => c₁.code ≠ c₂.code) ∧
    c3Cst ∈ c3Db.constituencies ∧
    c3Cst.code = c3P1.constituency_code ∧
    (∃ v, read_project c3Db c3P1.id = .ok v ∧
      v.constituency_name = c3Cst.name ∧ v.county = c3Cst.county ∧
      v.mp_name = c3Cst.mp_name ∧
      (c3Db.awards.filter (fun a => a.project_id == c3P1.id) = [] →
        v.contractor_name = none ∧ v.tender_id = none ∧ v.procurement_method = none ∧
        v.contract_value = none ∧ v.award_date = none) ∧
      (∀ a, c3Db.awards.filter (fun a => a.project_id == c3P1.id) = [a] →
        c3Db.contractors.filter (fun k => k.id == a.contractor_id) = [] →
        v.contractor_name = none ∧ v.tender_id = a.tender_id ∧
        v.procurement_method = a.procurement_method ∧
        v.contract_value = a.contract_value ∧ v.award_date = a.award_date)) ∧
    read_project c3Db 2 = .ok (mkView ⟨c3P2, c3Cst, some c3Award, none⟩) ∧
    (mkView ⟨c3P2, c3Cst, some c3Award, none⟩).contractor_name = none ∧
    (mkView ⟨c3P2, c3Cst, some c3Award, none⟩).tender_id = some "T-9" :=
  ⟨by decide, by decide, by decide, by decide, by decide,
   get_project_join_semantics c3Db c3P1 c3Cst (by decide) (by decide) (by decide)
     (by decide) (by decide),
   by decide, by decide, by decide⟩
